import Mathlib

/-!
Verification of the pydantic-airtable library against its specification.

The definitions below are a shallow embedding of the Python sources:
src/pydantic_airtable/fields.py, field_types.py, config.py, and the
documented model-binding operations.  Python types are modelled by the
inductive `PyType`, Python runtime values crossing the Airtable wire
boundary by `PyValue`, and raised exceptions by `Except PyExc`.
-/

set_option maxHeartbeats 1000000

/-- AirTable field types, from the AirTableFieldType enum in fields.py. -/
inductive AirTableFieldType where
  | SINGLE_LINE_TEXT
  | LONG_TEXT
  | EMAIL
  | URL
  | PHONE
  | NUMBER
  | CURRENCY
  | PERCENT
  | RATING
  | DURATION
  | DATE
  | DATETIME
  | CHECKBOX
  | SELECT
  | MULTI_SELECT
  | LINKED_RECORD
  | LOOKUP
  | ROLLUP
  | COUNT
  | ATTACHMENT
  | BARCODE
  | BUTTON
  | USER
  | FORMULA
  | AUTO_NUMBER
  | CREATED_TIME
  | MODIFIED_TIME
  | CREATED_BY
  | MODIFIED_BY
deriving DecidableEq

/-- The string value of each enum member (AirTableFieldType is a str Enum;
a member is truthy exactly when its value is a nonempty string). -/
def fieldTypeValue : AirTableFieldType → String
  | .SINGLE_LINE_TEXT => "singleLineText"
  | .LONG_TEXT => "multilineText"
  | .EMAIL => "email"
  | .URL => "url"
  | .PHONE => "phoneNumber"
  | .NUMBER => "number"
  | .CURRENCY => "currency"
  | .PERCENT => "percent"
  | .RATING => "rating"
  | .DURATION => "duration"
  | .DATE => "date"
  | .DATETIME => "dateTime"
  | .CHECKBOX => "checkbox"
  | .SELECT => "singleSelect"
  | .MULTI_SELECT => "multipleSelects"
  | .LINKED_RECORD => "multipleRecordLinks"
  | .LOOKUP => "lookup"
  | .ROLLUP => "rollup"
  | .COUNT => "count"
  | .ATTACHMENT => "multipleAttachments"
  | .BARCODE => "barcode"
  | .BUTTON => "button"
  | .USER => "multipleCollaborators"
  | .FORMULA => "formula"
  | .AUTO_NUMBER => "autoNumber"
  | .CREATED_TIME => "createdTime"
  | .MODIFIED_TIME => "lastModifiedTime"
  | .CREATED_BY => "createdBy"
  | .MODIFIED_BY => "lastModifiedBy"

/-- Python type annotations, as far as the field-type resolver inspects them:
base classes, None, enum classes, Union/Optional forms and subscripted
generics (for which typing.get_origin returns the origin class). -/
inductive PyType where
  | str
  | int
  | float
  | bool
  | datetime
  | date
  | timedelta
  | noneType
  | list
  | dict
  | enumType (name : String)
  | union (args : List PyType)
  | generic (origin : PyType) (args : List PyType)
  | other (name : String)

/-- True on the NoneType annotation (the code filters args != type(None)). -/
def isNoneType : PyType → Bool
  | .noneType => true
  | _ => false

/-- FieldTypeResolver._extract_base_type: unwrap Union/Optional by recursing
into the first non-None argument; for subscripted generics return the origin;
otherwise return the annotation itself.  The degenerate Union with no
non-None argument cannot be built by the typing module; the code would
return the bare Union form there, which we render as the union node itself
(both land in the final fallback of the resolver). -/
def extract_base_type : PyType → PyType
  | .union args =>
    match h : args.filter (fun a => !(isNoneType a)) with
    | [] => .union args
    | a :: _ => extract_base_type a
  | .generic origin _ => origin
  | .str => .str
  | .int => .int
  | .float => .float
  | .bool => .bool
  | .datetime => .datetime
  | .date => .date
  | .timedelta => .timedelta
  | .noneType => .noneType
  | .list => .list
  | .dict => .dict
  | .enumType n => .enumType n
  | .other n => .other n
termination_by t => sizeOf t
decreasing_by
  have ha : a ∈ args := List.mem_of_mem_filter (h ▸ List.mem_cons_self a _)
  have := List.sizeOf_lt_of_mem ha
  simp only [PyType.union.sizeOf_spec]
  omega

/-- FieldTypeResolver._is_string_type: the extracted base class is str. -/
def is_string_type (t : PyType) : Bool :=
  match extract_base_type t with
  | .str => true
  | _ => false

/-- FieldTypeResolver._is_enum_type: the extracted base is an Enum class. -/
def is_enum_type (t : PyType) : Bool :=
  match extract_base_type t with
  | .enumType _ => true
  | _ => false

/-- FieldTypeResolver.PYTHON_TO_AIRTABLE as a partial lookup on base classes.
Note: the resolver table has no timedelta entry (unlike TypeMapper). -/
def PYTHON_TO_AIRTABLE : PyType → Option AirTableFieldType
  | .str => some .SINGLE_LINE_TEXT
  | .int => some .NUMBER
  | .float => some .NUMBER
  | .bool => some .CHECKBOX
  | .datetime => some .DATETIME
  | .date => some .DATE
  | .list => some .MULTI_SELECT
  | _ => none

/-- TypeMapper.TYPE_MAPPING lookup with its SINGLE_LINE_TEXT default
(TypeMapper.get_airtable_type in fields.py); this table does map timedelta
to DURATION. -/
def TypeMapper.get_airtable_type : PyType → AirTableFieldType
  | .str => .SINGLE_LINE_TEXT
  | .int => .NUMBER
  | .float => .NUMBER
  | .bool => .CHECKBOX
  | .datetime => .DATETIME
  | .date => .DATE
  | .timedelta => .DURATION
  | _ => .SINGLE_LINE_TEXT

/-- Lowercase a field name character-wise.  The Python code calls
field_name.lower(); the patterns are all ASCII, for which Char.toLower
agrees with str.lower. -/
def lowerName (s : String) : List Char :=
  s.data.map Char.toLower

/-- Substring containment on character lists.  Every regex in the pattern
tables is a plain literal, so re.search(pattern, name) is exactly a
substring test. -/
def containsSub : List Char → List Char → Bool
  | p, [] => p.isEmpty
  | p, c :: rest => p.isPrefixOf (c :: rest) || containsSub p rest

/-- any(re.search(pattern, name_lower) for pattern in patterns). -/
def matchesAny (pats : List String) (s : List Char) : Bool :=
  pats.any (fun p => containsSub p.data s)

def EMAIL_PATTERNS : List String := ["email", "e_mail", "mail", "contact"]

def URL_PATTERNS : List String := ["url", "link", "website", "site", "href"]

def PHONE_PATTERNS : List String := ["phone", "tel", "mobile", "cell"]

def LONG_TEXT_PATTERNS : List String :=
  ["description", "comment", "note", "bio", "summary",
   "content", "body", "message", "detail"]

def CURRENCY_PATTERNS : List String :=
  ["price", "cost", "amount", "fee", "salary", "wage",
   "revenue", "budget", "payment"]

def PERCENT_PATTERNS : List String := ["percent", "percentage", "rate", "ratio"]

/-- FieldTypeResolver._detect_from_field_name: ordered pattern groups on the
lowercased field name, first group matched wins. -/
def detect_from_field_name (field_name : String) : Option AirTableFieldType :=
  let nl := lowerName field_name
  if matchesAny EMAIL_PATTERNS nl then some .EMAIL
  else if matchesAny URL_PATTERNS nl then some .URL
  else if matchesAny PHONE_PATTERNS nl then some .PHONE
  else if matchesAny LONG_TEXT_PATTERNS nl then some .LONG_TEXT
  else none

/-- FieldTypeResolver._refine_number_type: currency patterns, then percent
patterns, else plain NUMBER. -/
def refine_number_type (field_name : String) : AirTableFieldType :=
  let nl := lowerName field_name
  if matchesAny CURRENCY_PATTERNS nl then .CURRENCY
  else if matchesAny PERCENT_PATTERNS nl then .PERCENT
  else .NUMBER

/-- The json_schema_extra attribute of a pydantic FieldInfo, as far as the
resolver looks at it: either a dict (whose airtable_field_type entry, when
present, may itself hold None, as AirTableField writes by default) or a
callable (which the isinstance(extra, dict) test skips). -/
inductive JsonSchemaExtra where
  | dict (airtable_field_type : Option (Option AirTableFieldType))
  | callable

/-- A pydantic FieldInfo carrying an optional json_schema_extra. -/
structure FieldInfo where
  json_schema_extra : Option JsonSchemaExtra

/-- Step 2 of the resolver: the airtable_field_type entry of the field-info
metadata, when field_info is given, its extra is a dict and the key exists.
The outer Option is key presence; the inner value is what the dict stores
(possibly Python None). -/
def metadataFieldType : Option FieldInfo → Option (Option AirTableFieldType)
  | some info =>
    match info.json_schema_extra with
    | some (.dict entry) => entry
    | _ => none
  | none => none

/-- Steps 3 to 6 of FieldTypeResolver.resolve_field_type: smart name
detection for string types, the PYTHON_TO_AIRTABLE mapping with number
refinement, the enum case, and the SINGLE_LINE_TEXT fallback. -/
def resolve_from_name_and_type (field_name : String) (python_type : PyType) :
    AirTableFieldType :=
  match (if is_string_type python_type then detect_from_field_name field_name
         else none) with
  | some smart => smart
  | none =>
    match PYTHON_TO_AIRTABLE (extract_base_type python_type) with
    | some airtable_type =>
      if airtable_type = .NUMBER then refine_number_type field_name
      else airtable_type
    | none =>
      if is_enum_type python_type then .SELECT
      else .SINGLE_LINE_TEXT

/-- Steps 2 to 6 of the resolver, reached when the explicit type is absent
or falsy: return the metadata entry if the key is present (even when it
stores None), else run name detection and type mapping. -/
def resolve_after_explicit (field_name : String) (python_type : PyType)
    (field_info : Option FieldInfo) : Option AirTableFieldType :=
  match metadataFieldType field_info with
  | some entry => entry
  | none => some (resolve_from_name_and_type field_name python_type)

/-- FieldTypeResolver.resolve_field_type.  The result is an Option because
the metadata path returns the dict entry unconditionally: when the dict
stores None under airtable_field_type (the AirTableField default), the
Python function returns None even though it is annotated to return an
AirTableFieldType; that Python None is rendered as `none`. -/
def resolve_field_type (field_name : String) (python_type : PyType)
    (field_info : Option FieldInfo)
    (explicit_type : Option AirTableFieldType) : Option AirTableFieldType :=
  match explicit_type with
  | some e =>
    if fieldTypeValue e = "" then resolve_after_explicit field_name python_type field_info
    else some e
  | none => resolve_after_explicit field_name python_type field_info

/-- Python str.startswith as a structural prefix test on the character
lists of the two strings. -/
def pyStartswith (s p : String) : Bool :=
  p.data.isPrefixOf s.data

/-- Python exceptions raised by the modelled code paths. -/
inductive PyExc where
  | configurationError (msg : String)
  | valueError
  | typeError
  | overflowError
deriving DecidableEq

/-- The AirTableConfig dataclass fields (config.py). -/
structure AirTableConfig where
  access_token : String
  base_id : String
  table_name : Option String
deriving DecidableEq

/-- Dataclass construction of AirTableConfig followed by __post_init__:
missing token, missing base id, token without the pat prefix and base id
without the app prefix each raise a ConfigurationError, in that order. -/
def mkAirTableConfig (access_token : String) (base_id : String)
    (table_name : Option String) : Except PyExc AirTableConfig :=
  if access_token = "" then
    .error (.configurationError "AirTable Personal Access Token is required.")
  else if base_id = "" then
    .error (.configurationError "AirTable Base ID is required.")
  else if !(pyStartswith access_token "pat") then
    .error (.configurationError
      "Invalid access token format. Personal Access Tokens must start with pat.")
  else if !(pyStartswith base_id "app") then
    .error (.configurationError
      "Invalid base ID format. Base IDs must start with app.")
  else .ok ⟨access_token, base_id, table_name⟩

/-- Python `override or fallback` on an optional string override: the
fallback is used when the override is None or the empty string. -/
def pyOrStr (override : Option String) (fallback : String) : String :=
  match override with
  | some s => if s = "" then fallback else s
  | none => fallback

/-- Python `override or fallback` where the fallback itself is optional
(os.getenv with no default). -/
def pyOrOptStr (override : Option String) (fallback : Option String) :
    Option String :=
  match override with
  | some s => if s = "" then fallback else some s
  | none => fallback

/-- AirTableConfig.from_env: read overrides or else the prefixed
environment variables (token and base id defaulting to the empty string),
then construct, which runs the __post_init__ validation. -/
def AirTableConfig.from_env (access_token : Option String)
    (base_id : Option String) (table_name : Option String)
    (env : String → Option String) (env_pre : String) :
    Except PyExc AirTableConfig :=
  mkAirTableConfig
    (pyOrStr access_token ((env (env_pre ++ "ACCESS_TOKEN")).getD ""))
    (pyOrStr base_id ((env (env_pre ++ "BASE_ID")).getD ""))
    (pyOrOptStr table_name (env (env_pre ++ "TABLE_NAME")))

/-- AirTableConfig.with_table: build a new AirTableConfig with the same
token and base id and the given table name; the dataclass constructor runs
__post_init__ again.  The original config is a value and is untouched. -/
def AirTableConfig.with_table (c : AirTableConfig) (table_name : String) :
    Except PyExc AirTableConfig :=
  mkAirTableConfig c.access_token c.base_id (some table_name)

/-- A decimal digit character (48 is the code of the character 0). -/
def d2c (k : Nat) : Char := Char.ofNat (48 + k)

/-- Two-digit zero-padded decimal rendering (for n < 100). -/
def pad2 (n : Nat) : List Char := [d2c (n / 10), d2c (n % 10)]

/-- Four-digit zero-padded decimal rendering (for n < 10000). -/
def pad4 (n : Nat) : List Char := pad2 (n / 100) ++ pad2 (n % 100)

/-- Six-digit zero-padded decimal rendering (for n < 1000000). -/
def pad6 (n : Nat) : List Char :=
  pad2 (n / 10000) ++ pad2 ((n / 100) % 100) ++ pad2 (n % 100)

/-- Read one ASCII decimal digit.  The Python regexes use the unicode-aware
d class, but every encoding the claims quantify over is ASCII. -/
def readDigit (c : Char) : Option Nat :=
  if 48 ≤ c.toNat ∧ c.toNat ≤ 57 then some (c.toNat - 48) else none

/-- Read exactly two decimal digits. -/
def read2 : List Char → Option (Nat × List Char)
  | c1 :: c2 :: rest =>
    match readDigit c1, readDigit c2 with
    | some a, some b => some (10 * a + b, rest)
    | _, _ => none
  | _ => none

/-- Read exactly four decimal digits. -/
def read4 (l : List Char) : Option (Nat × List Char) :=
  match read2 l with
  | some (a, r1) =>
    match read2 r1 with
    | some (b, r2) => some (100 * a + b, r2)
    | none => none
  | none => none

/-- Read exactly six decimal digits. -/
def read6 (l : List Char) : Option (Nat × List Char) :=
  match read2 l with
  | some (a, r1) =>
    match read2 r1 with
    | some (b, r2) =>
      match read2 r2 with
      | some (c, r3) => some (10000 * a + 100 * b + c, r3)
      | none => none
    | none => none
  | none => none

/-- Consume one expected character. -/
def expectChar (c : Char) : List Char → Option (List Char)
  | d :: rest => if d = c then some rest else none
  | [] => none

/-- A datetime.date value. -/
structure PyDate where
  year : Nat
  month : Nat
  day : Nat
deriving DecidableEq

/-- A datetime.datetime value; tzoffset is the UTC offset in whole minutes
of an aware value (offsets produced by fromisoformat on HH:MM forms), or
none for a naive value. -/
structure PyDatetime where
  year : Nat
  month : Nat
  day : Nat
  hour : Nat
  minute : Nat
  second : Nat
  microsecond : Nat
  tzoffset : Option Int
deriving DecidableEq

/-- A datetime.timedelta value in its normalized representation:
0 <= seconds < 86400 and 0 <= microseconds < 1000000. -/
structure PyTimedelta where
  days : Int
  seconds : Nat
  microseconds : Nat
deriving DecidableEq

def isLeap (y : Nat) : Bool :=
  y % 4 == 0 && (y % 100 != 0 || y % 400 == 0)

def daysInMonth (y m : Nat) : Nat :=
  if m = 2 then (if isLeap y then 29 else 28)
  else if m = 4 ∨ m = 6 ∨ m = 9 ∨ m = 11 then 30
  else 31

/-- The datetime constructor accepts exactly these date components
(MINYEAR 1 to MAXYEAR 9999). -/
def dateOK (y mo d : Nat) : Prop :=
  1 ≤ y ∧ y ≤ 9999 ∧ 1 ≤ mo ∧ mo ≤ 12 ∧ 1 ≤ d ∧ d ≤ daysInMonth y mo

instance (y mo d : Nat) : Decidable (dateOK y mo d) := by
  unfold dateOK
  infer_instance

/-- The datetime constructor accepts exactly these time components. -/
def timeOK (h mi s us : Nat) : Prop :=
  h ≤ 23 ∧ mi ≤ 59 ∧ s ≤ 59 ∧ us ≤ 999999

instance (h mi s us : Nat) : Decidable (timeOK h mi s us) := by
  unfold timeOK
  infer_instance

/-- A timezone object requires an offset strictly between -24h and +24h. -/
def tzOK : Option Int → Prop
  | none => True
  | some o => o.natAbs ≤ 1439

def ValidDate (d : PyDate) : Prop := dateOK d.year d.month d.day

def ValidDatetime (dt : PyDatetime) : Prop :=
  dateOK dt.year dt.month dt.day ∧
  timeOK dt.hour dt.minute dt.second dt.microsecond ∧
  tzOK dt.tzoffset

/-- The fractional part emitted by datetime.isoformat: six digits when the
microsecond is nonzero, nothing otherwise. -/
def microPart (us : Nat) : List Char :=
  if us = 0 then [] else ['.'] ++ pad6 us

/-- The offset suffix emitted by datetime.isoformat for a whole-minute
utcoffset: sign, two-digit hours, colon, two-digit minutes. -/
def tzPart : Option Int → List Char
  | none => []
  | some o =>
    [if o < 0 then '-' else '+'] ++ pad2 (o.natAbs / 60) ++ [':'] ++
      pad2 (o.natAbs % 60)

/-- datetime.isoformat() with the default T separator. -/
def isoChars (dt : PyDatetime) : List Char :=
  pad4 dt.year ++ ['-'] ++ pad2 dt.month ++ ['-'] ++ pad2 dt.day ++ ['T'] ++
  pad2 dt.hour ++ [':'] ++ pad2 dt.minute ++ [':'] ++ pad2 dt.second ++
  microPart dt.microsecond ++ tzPart dt.tzoffset

def isoformat (dt : PyDatetime) : String := String.mk (isoChars dt)

/-- strftime with the format %Y-%m-%d (CPython zero-pads %Y to 4). -/
def dateChars (d : PyDate) : List Char :=
  pad4 d.year ++ ['-'] ++ pad2 d.month ++ ['-'] ++ pad2 d.day

def strftimeDate (d : PyDate) : String := String.mk (dateChars d)

/-- value.replace of the single character Z by +00:00, as
parse_value_from_airtable does before calling fromisoformat. -/
def replaceZ (l : List Char) : List Char :=
  l.flatMap (fun c => if c = 'Z' then "+00:00".data else [c])

/-- The optional fraction of a time: a dot followed by exactly six digits
(the canonical isoformat rendering; 3.11 also accepts shorter fractions,
which no canonical encoding produces). -/
def readFrac : List Char → Option (Nat × List Char)
  | '.' :: r => read6 r
  | l => some (0, l)

/-- The optional offset suffix: sign, HH:MM, consuming the rest of the
string; the resulting timezone must be strictly inside a day. -/
def readTz : List Char → Option (Option Int)
  | [] => some none
  | c :: rest =>
    if c = '+' ∨ c = '-' then
      match read2 rest with
      | some (a, r1) =>
        match expectChar ':' r1 with
        | some r2 =>
          match read2 r2 with
          | some (b, r3) =>
            if r3 = [] then
              if 60 * a + b ≤ 1439 then
                some (some (if c = '-' then -(60 * (a : Int) + b)
                  else 60 * (a : Int) + b))
              else none
            else none
          | none => none
        | none => none
      | none => none
    else none

/-- datetime.fromisoformat on the canonical fragment: the strings emitted by
datetime.isoformat with whole-minute offsets and the T separator, plus
date-only strings.  A parse failure models the ValueError that the caller
catches. -/
def fromisoformat (l : List Char) : Option PyDatetime :=
  match read4 l with
  | some (y, r1) =>
    match expectChar '-' r1 with
    | some r2 =>
      match read2 r2 with
      | some (mo, r3) =>
        match expectChar '-' r3 with
        | some r4 =>
          match read2 r4 with
          | some (d, r5) =>
            match r5 with
            | [] =>
              if dateOK y mo d then some ⟨y, mo, d, 0, 0, 0, 0, none⟩
              else none
            | 'T' :: r6 =>
              match read2 r6 with
              | some (h, r7) =>
                match expectChar ':' r7 with
                | some r8 =>
                  match read2 r8 with
                  | some (mi, r9) =>
                    match expectChar ':' r9 with
                    | some r10 =>
                      match read2 r10 with
                      | some (s, r11) =>
                        match readFrac r11 with
                        | some (us, r12) =>
                          match readTz r12 with
                          | some tz =>
                            if dateOK y mo d ∧ timeOK h mi s us then
                              some ⟨y, mo, d, h, mi, s, us, tz⟩
                            else none
                          | none => none
                        | none => none
                      | none => none
                    | none => none
                  | none => none
                | none => none
              | none => none
            | _ => none
          | none => none
        | none => none
      | none => none
    | none => none
  | none => none

/-- The month group of the strptime regex, 1[0-2]|0[1-9]|[1-9]: all
alternatives that can match at this position, in pattern order, each with
its captured value and the remaining input (regex backtracking tries them
in this order until the rest of the pattern matches). -/
def candidatesMonth (l : List Char) : List (Nat × List Char) :=
  (match l with
   | c1 :: c2 :: rest =>
     if c1 = '1' ∧ '0' ≤ c2 ∧ c2 ≤ '2' then [(10 + (c2.toNat - 48), rest)]
     else []
   | _ => []) ++
  (match l with
   | c1 :: c2 :: rest =>
     if c1 = '0' ∧ '1' ≤ c2 ∧ c2 ≤ '9' then [(c2.toNat - 48, rest)] else []
   | _ => []) ++
  (match l with
   | c :: rest => if '1' ≤ c ∧ c ≤ '9' then [(c.toNat - 48, rest)] else []
   | _ => [])

/-- The day group of the strptime regex, 3[01]|[12][0-9]|0[1-9]|[1-9]. -/
def candidatesDay (l : List Char) : List (Nat × List Char) :=
  (match l with
   | c1 :: c2 :: rest =>
     if c1 = '3' ∧ '0' ≤ c2 ∧ c2 ≤ '1' then [(30 + (c2.toNat - 48), rest)]
     else []
   | _ => []) ++
  (match l with
   | c1 :: c2 :: rest =>
     if ('1' ≤ c1 ∧ c1 ≤ '2') ∧ ('0' ≤ c2 ∧ c2 ≤ '9') then
       [(10 * (c1.toNat - 48) + (c2.toNat - 48), rest)]
     else []
   | _ => []) ++
  (match l with
   | c1 :: c2 :: rest =>
     if c1 = '0' ∧ '1' ≤ c2 ∧ c2 ≤ '9' then [(c2.toNat - 48, rest)] else []
   | _ => []) ++
  (match l with
   | c :: rest => if '1' ≤ c ∧ c ≤ '9' then [(c.toNat - 48, rest)] else []
   | _ => [])

/-- The regex phase of strptime with format %Y-%m-%d: a four-digit year,
a dash, then the first month and day alternatives that let the whole string
be consumed (backtracking in pattern order). -/
def parseDateSyntax (l : List Char) : Option (Nat × Nat × Nat) :=
  match read4 l with
  | some (y, r1) =>
    match expectChar '-' r1 with
    | some r2 =>
      (candidatesMonth r2).findSome? (fun p =>
        match expectChar '-' p.2 with
        | some r4 =>
          (candidatesDay r4).findSome? (fun q =>
            if q.2 = [] then some (y, p.1, q.1) else none)
        | none => none)
    | none => none
  | none => none

/-- datetime.strptime(value, %Y-%m-%d).date(): regex match over the whole
string, then validation by the datetime constructor (a ValueError on an
impossible date is not retried against other regex alternatives). -/
def strptimeDate (l : List Char) : Option PyDate :=
  match parseDateSyntax l with
  | some (y, mo, d) => if dateOK y mo d then some ⟨y, mo, d⟩ else none
  | none => none

/-- timedelta normalization from a total number of microseconds, with the
overflow check on the resulting day count (magnitude at most 999999999). -/
def timedeltaFromMicros (us : Int) : Except PyExc PyTimedelta :=
  if us.fdiv 86400000000 < -999999999 ∨ 999999999 < us.fdiv 86400000000 then
    .error .overflowError
  else
    .ok ⟨us.fdiv 86400000000,
      ((us - 86400000000 * us.fdiv 86400000000).fdiv 1000000).toNat,
      ((us - 86400000000 * us.fdiv 86400000000).fmod 1000000).toNat⟩

/-- timedelta(seconds=n) for an int n. -/
def timedeltaFromSeconds (n : Int) : Except PyExc PyTimedelta :=
  timedeltaFromMicros (n * 1000000)

/-- Round to the nearest integer, ties to even (the rounding CPython applies
to the residual microsecond fraction of a float timedelta argument). -/
def roundHalfEven (q : ℚ) : Int :=
  let f := ⌊q⌋
  let r := q - f
  if r < 1/2 then f
  else if 1/2 < r then f + 1
  else if f % 2 = 0 then f else f + 1

/-- timedelta(seconds=q) for a float, modelled on the exact rational value
of the float. -/
def timedeltaFromRat (q : ℚ) : Except PyExc PyTimedelta :=
  timedeltaFromMicros (roundHalfEven (q * 1000000))

/-- int(td.total_seconds()): total_seconds computes a float; int truncates
toward zero, which Int.tdiv models.  For every duration whose total seconds
fit in 53 bits (all of them, given the day-count bound) the float division
by 10^6 of an integral product is exact, so the integer model coincides
with the float computation on the values the claims quantify over. -/
def intTotalSeconds (td : PyTimedelta) : Int :=
  Int.tdiv (td.days * 86400000000 + td.seconds * 1000000 + td.microseconds)
    1000000

/-- int(q) for a float value: truncation toward zero. -/
def ratTrunc (q : ℚ) : Int := Int.tdiv q.num q.den

/-- Python runtime values that cross the Airtable wire boundary in the
TypeMapper conversion functions.  Floats are carried as their exact
rational values; collection values, which no conversion branch inspects
beyond identity, are not modelled. -/
inductive PyValue where
  | none_
  | bool (b : Bool)
  | int (n : Int)
  | float (q : ℚ)
  | str (s : String)
  | datetime (dt : PyDatetime)
  | date (d : PyDate)
  | timedelta (td : PyTimedelta)
deriving DecidableEq

/-- Python truthiness of the modelled values (bool(value)). -/
def pyTruthy : PyValue → Bool
  | .none_ => false
  | .bool b => b
  | .int n => n != 0
  | .float q => q != 0
  | .str s => !s.isEmpty
  | .datetime _ => true
  | .date _ => true
  | .timedelta td =>
    !(td.days == 0 && td.seconds == 0 && td.microseconds == 0)

/-- float(value) on the modelled values.  bool is an int subclass, so it
converts; str arguments (accepted by Python for numeric literals) are not
modelled, as no claim exercises the numeric branch on strings, and other
types raise TypeError. -/
def pyFloat : PyValue → Except PyExc ℚ
  | .int n => .ok (n : ℚ)
  | .float q => .ok q
  | .bool b => .ok (if b then 1 else 0)
  | _ => .error .typeError

/-- TypeMapper.format_value_for_airtable (fields.py): serialize a Python
value for the wire under the given field type; values of unexpected runtime
type fall through unchanged. -/
def format_value_for_airtable (value : PyValue) (field_type : AirTableFieldType) :
    Except PyExc PyValue :=
  match value with
  | .none_ => .ok .none_
  | v =>
    if field_type = .DATETIME then
      match v with
      | .datetime dt => .ok (.str (isoformat dt))
      | _ => .ok v
    else if field_type = .DATE then
      match v with
      | .datetime dt => .ok (.str (strftimeDate ⟨dt.year, dt.month, dt.day⟩))
      | .date d => .ok (.str (strftimeDate d))
      | _ => .ok v
    else if field_type = .DURATION then
      match v with
      | .timedelta td => .ok (.int (intTotalSeconds td))
      | .int n => .ok (.int n)
      | .float q => .ok (.int (ratTrunc q))
      | .bool b => .ok (.int (if b then 1 else 0))
      | _ => .ok v
    else if field_type = .CHECKBOX then .ok (.bool (pyTruthy v))
    else if field_type = .NUMBER ∨ field_type = .CURRENCY ∨
        field_type = .PERCENT then
      match v with
      | .bool b => .ok (.bool b)
      | w => (pyFloat w).map .float
    else .ok v

/-- TypeMapper.parse_value_from_airtable (fields.py): deserialize a wire
value under the given field type.  The try/except ValueError around the two
date parsers is the fall back to the raw string; the timedelta constructor
in the DURATION branch is not guarded, so its OverflowError propagates. -/
def parse_value_from_airtable (value : PyValue) (field_type : AirTableFieldType) :
    Except PyExc PyValue :=
  match value with
  | .none_ => .ok .none_
  | v =>
    if field_type = .DATETIME then
      match v with
      | .str s =>
        match fromisoformat (replaceZ s.data) with
        | some dt => .ok (.datetime dt)
        | none => .ok (.str s)
      | _ => .ok v
    else if field_type = .DATE then
      match v with
      | .str s =>
        match strptimeDate s.data with
        | some d => .ok (.date d)
        | none => .ok (.str s)
      | _ => .ok v
    else if field_type = .DURATION then
      match v with
      | .int n => (timedeltaFromSeconds n).map .timedelta
      | .float q => (timedeltaFromRat q).map .timedelta
      | .bool b => (timedeltaFromSeconds (if b then 1 else 0)).map .timedelta
      | _ => .ok v
    else if field_type = .CHECKBOX then .ok (.bool (pyTruthy v))
    else .ok v

/-- serialize(deserialize(x)) under one field type. -/
def wireRoundtrip (value : PyValue) (field_type : AirTableFieldType) :
    Except PyExc PyValue :=
  (parse_value_from_airtable value field_type).bind
    (fun w => format_value_for_airtable w field_type)

/-- Modelled from the spec: the model-binding module that implements
bulk_create is not among the sources (only an example calls it); the spec
says it batches the input into Airtable's batch-size limit of groups of at
most 10 consecutive records.  This is that batching. -/
def chunks10 : List α → List (List α)
  | [] => []
  | x :: xs => ((x :: xs).take 10) :: chunks10 ((x :: xs).drop 10)
termination_by l => l.length
decreasing_by
  simp only [List.length_drop, List.length_cons]
  omega

/-- Modelled from the spec: bulk_create issues one create call per batch,
sequentially, each call creating the records of its batch in order; the
first component lists the batches as sent, the second the created record
instances returned to the caller, with creation modelled by the
per-record server response create_record. -/
def bulk_create (create_record : α → β) (records : List α) :
    List (List α) × List β :=
  (chunks10 records,
   ((chunks10 records).map (fun batch => batch.map create_record)).flatten)

-- ===================== end of definitions =====================

/-- Every AirTableFieldType member has a nonempty string value, hence is
truthy in the `if explicit_type:` test. -/
theorem fieldTypeValue_ne_empty (e : AirTableFieldType) : fieldTypeValue e ≠ "" := by
  cases e <;> decide

/-- With no explicit type and no field info, the resolver reduces to the
name-and-type stage. -/
theorem resolve_no_override (name : String) (pt : PyType) :
    resolve_field_type name pt none none =
      some (resolve_from_name_and_type name pt) := rfl

/-- Claim C1: for every field whose declared type is (or unwraps through
Optional to) str, resolve_field_type with no explicit override and no
field-info metadata returns EMAIL when the lowercased field name matches the
email pattern group, URL for the url group, PHONE for the phone group,
LONG_TEXT for the long-text group, with the first matching group winning,
and SINGLE_LINE_TEXT for every string-typed field name matching no group. -/
theorem claim_C1 (name : String) (pt : PyType)
    (h : is_string_type pt = true) :
    resolve_field_type name pt none none =
      some (if matchesAny EMAIL_PATTERNS (lowerName name) then .EMAIL
        else if matchesAny URL_PATTERNS (lowerName name) then .URL
        else if matchesAny PHONE_PATTERNS (lowerName name) then .PHONE
        else if matchesAny LONG_TEXT_PATTERNS (lowerName name) then .LONG_TEXT
        else .SINGLE_LINE_TEXT) := by
  have hb : extract_base_type pt = .str := by
    unfold is_string_type at h
    revert h
    cases extract_base_type pt <;> simp
  rw [resolve_no_override]
  unfold resolve_from_name_and_type detect_from_field_name
  rw [h]
  simp only [hb, PYTHON_TO_AIRTABLE]
  split_ifs <;> simp_all

/-- Claim C1 witness: a concrete string-typed field named Contact_URL is
resolved as EMAIL (the email group, which contains the contact pattern,
wins over the url group). -/
theorem claim_C1_witness :
    resolve_field_type "Contact_URL" PyType.str none none =
      some AirTableFieldType.EMAIL := by
  have h := claim_C1 "Contact_URL" PyType.str
    (by simp [is_string_type, extract_base_type])
  rw [h]
  decide

/-- Claim C2: an explicit AirTable field type passed to resolve_field_type
is always returned, regardless of field name, declared type and metadata;
with no explicit type, a field-type carried by the field-info metadata is
returned in preference to detection and type mapping. -/
theorem claim_C2 :
    (∀ (name : String) (pt : PyType) (fi : Option FieldInfo)
        (e : AirTableFieldType),
        resolve_field_type name pt fi (some e) = some e) ∧
    (∀ (name : String) (pt : PyType) (m : AirTableFieldType),
        resolve_field_type name pt
          (some ⟨some (.dict (some (some m)))⟩) none = some m) := by
  constructor
  · intro name pt fi e
    have hstep : resolve_field_type name pt fi (some e) =
        if fieldTypeValue e = "" then resolve_after_explicit name pt fi
        else some e := rfl
    rw [hstep, if_neg (fieldTypeValue_ne_empty e)]
  · intro name pt m
    rfl

/-- Claim C3 (amended): with no override, no metadata and a field name
matching no string pattern group, resolve_field_type maps str to
SINGLE_LINE_TEXT, int and float to a number type, bool to CHECKBOX,
datetime to DATETIME, date to DATE, list to MULTI_SELECT and enum classes
to SELECT; timedelta is absent from the resolver table and falls back to
SINGLE_LINE_TEXT, the timedelta-to-DURATION mapping existing only in
TypeMapper.get_airtable_type. -/
theorem claim_C3 (name : String) (pt : PyType)
    (hname : detect_from_field_name name = none) :
    (extract_base_type pt = .str →
        resolve_field_type name pt none none = some .SINGLE_LINE_TEXT) ∧
    ((extract_base_type pt = .int ∨ extract_base_type pt = .float) →
        resolve_field_type name pt none none = some (refine_number_type name) ∧
        (refine_number_type name = .NUMBER ∨ refine_number_type name = .CURRENCY ∨
          refine_number_type name = .PERCENT)) ∧
    (extract_base_type pt = .bool →
        resolve_field_type name pt none none = some .CHECKBOX) ∧
    (extract_base_type pt = .datetime →
        resolve_field_type name pt none none = some .DATETIME) ∧
    (extract_base_type pt = .date →
        resolve_field_type name pt none none = some .DATE) ∧
    (extract_base_type pt = .list →
        resolve_field_type name pt none none = some .MULTI_SELECT) ∧
    (∀ en, extract_base_type pt = .enumType en →
        resolve_field_type name pt none none = some .SELECT) ∧
    (extract_base_type pt = .timedelta →
        resolve_field_type name pt none none = some .SINGLE_LINE_TEXT) ∧
    TypeMapper.get_airtable_type .timedelta = .DURATION := by
  refine ⟨?_, ?_, ?_, ?_, ?_, ?_, ?_, ?_, rfl⟩
  · intro hb
    rw [resolve_no_override]
    simp [resolve_from_name_and_type, is_string_type, is_enum_type, hb,
      PYTHON_TO_AIRTABLE, hname]
  · intro hb
    constructor
    · rcases hb with hb | hb <;>
        (rw [resolve_no_override]
         simp [resolve_from_name_and_type, is_string_type, is_enum_type, hb,
           PYTHON_TO_AIRTABLE])
    · by_cases h1 : matchesAny CURRENCY_PATTERNS (lowerName name) <;>
        by_cases h2 : matchesAny PERCENT_PATTERNS (lowerName name) <;>
        simp [refine_number_type, h1, h2]
  · intro hb
    rw [resolve_no_override]
    simp [resolve_from_name_and_type, is_string_type, is_enum_type, hb,
      PYTHON_TO_AIRTABLE]
  · intro hb
    rw [resolve_no_override]
    simp [resolve_from_name_and_type, is_string_type, is_enum_type, hb,
      PYTHON_TO_AIRTABLE]
  · intro hb
    rw [resolve_no_override]
    simp [resolve_from_name_and_type, is_string_type, is_enum_type, hb,
      PYTHON_TO_AIRTABLE]
  · intro hb
    rw [resolve_no_override]
    simp [resolve_from_name_and_type, is_string_type, is_enum_type, hb,
      PYTHON_TO_AIRTABLE]
  · intro en hb
    rw [resolve_no_override]
    simp [resolve_from_name_and_type, is_string_type, is_enum_type, hb,
      PYTHON_TO_AIRTABLE]
  · intro hb
    rw [resolve_no_override]
    simp [resolve_from_name_and_type, is_string_type, is_enum_type, hb,
      PYTHON_TO_AIRTABLE]

/-- Claim C3 counterexample: the claim as stated requires resolve_field_type
to map a timedelta-typed field to DURATION; the code instead falls back to
SINGLE_LINE_TEXT because the resolver table has no timedelta entry. -/
theorem claim_C3_counterexample :
    resolve_field_type "elapsed" PyType.timedelta none none =
        some AirTableFieldType.SINGLE_LINE_TEXT ∧
    AirTableFieldType.SINGLE_LINE_TEXT ≠ AirTableFieldType.DURATION := by
  constructor
  · rw [resolve_no_override]
    simp [resolve_from_name_and_type, is_string_type, is_enum_type,
      extract_base_type, PYTHON_TO_AIRTABLE]
  · decide

/-- Claim C3 witness: a concrete bool-typed field is resolved as CHECKBOX. -/
theorem claim_C3_witness :
    resolve_field_type "done" PyType.bool none none =
      some AirTableFieldType.CHECKBOX := by
  have h := claim_C3 "done" PyType.bool (by decide)
  exact h.2.2.1 (by simp [extract_base_type])

/-- Claim C7: for every field whose base type is int or float (with no
override and no metadata), resolve_field_type returns CURRENCY on a
currency pattern match, else PERCENT on a percent pattern match, else
NUMBER. -/
theorem claim_C7 (name : String) (pt : PyType)
    (hb : extract_base_type pt = .int ∨ extract_base_type pt = .float) :
    resolve_field_type name pt none none =
      some (if matchesAny CURRENCY_PATTERNS (lowerName name) then .CURRENCY
        else if matchesAny PERCENT_PATTERNS (lowerName name) then .PERCENT
        else .NUMBER) := by
  rw [resolve_no_override]
  rcases hb with hb | hb <;>
    (by_cases h1 : matchesAny CURRENCY_PATTERNS (lowerName name) <;>
      by_cases h2 : matchesAny PERCENT_PATTERNS (lowerName name) <;>
      simp [resolve_from_name_and_type, is_string_type, refine_number_type, hb,
        PYTHON_TO_AIRTABLE, h1, h2])

/-- Claim C7 witness: a float-typed field named unit_price is resolved
as CURRENCY. -/
theorem claim_C7_witness :
    resolve_field_type "unit_price" PyType.float none none =
      some AirTableFieldType.CURRENCY := by
  have h := claim_C7 "unit_price" PyType.float
    (Or.inr (by simp [extract_base_type]))
  rw [h]
  decide

/-- Claim C10 (amended): resolve_field_type is total (a Lean function on the
full annotation syntax, including nested Optional/Union, which the
well-founded recursion of extract_base_type unwraps), and it returns a
member of the enumeration for every input except one: when no explicit type
is given and the field-info metadata stores None under airtable_field_type
(the AirTableField default), the stored None itself is returned.  When no
rule applies it falls back to SINGLE_LINE_TEXT. -/
theorem claim_C10 :
    (∀ (name : String) (pt : PyType) (fi : Option FieldInfo)
        (e : Option AirTableFieldType),
        resolve_field_type name pt fi e = none ↔
          (e = none ∧ metadataFieldType fi = some none)) ∧
    (∀ (name : String) (pt : PyType),
        PYTHON_TO_AIRTABLE (extract_base_type pt) = none →
        is_enum_type pt = false →
        resolve_field_type name pt none none = some .SINGLE_LINE_TEXT) := by
  constructor
  · intro name pt fi e
    match e with
    | some e' =>
      have hstep : resolve_field_type name pt fi (some e') =
          if fieldTypeValue e' = "" then resolve_after_explicit name pt fi
          else some e' := rfl
      rw [hstep, if_neg (fieldTypeValue_ne_empty e')]
      simp
    | none =>
      have hstep : resolve_field_type name pt fi none =
          resolve_after_explicit name pt fi := rfl
      rw [hstep]
      unfold resolve_after_explicit
      match h : metadataFieldType fi with
      | some entry => simp
      | none => simp
  · intro name pt hmap henum
    rw [resolve_no_override]
    unfold resolve_from_name_and_type is_string_type
    have hb : ∀ b, extract_base_type pt = b → PYTHON_TO_AIRTABLE b = none →
        (match b with | PyType.str => true | _ => false) = false := by
      intro b _ hm
      cases b <;> first | rfl | simp [PYTHON_TO_AIRTABLE] at hm
    simp only [hb _ rfl hmap, hmap, henum]
    simp

/-- Claim C10 counterexample: with field-info metadata whose
airtable_field_type entry stores None (exactly what AirTableField writes
when no type is passed), resolve_field_type returns that Python None, which
is not a member of the AirTableFieldType enumeration. -/
theorem claim_C10_counterexample :
    resolve_field_type "x" PyType.str
      (some ⟨some (.dict (some none))⟩) none = none := rfl

/-- Claim C10 witness: a plain object-typed annotation with no matching rule
falls back to SINGLE_LINE_TEXT. -/
theorem claim_C10_witness :
    resolve_field_type "x" (PyType.other "object") none none =
      some AirTableFieldType.SINGLE_LINE_TEXT := by
  exact claim_C10.2 "x" (PyType.other "object")
    (by simp [extract_base_type, PYTHON_TO_AIRTABLE])
    (by simp [is_enum_type, extract_base_type])

/-- The construction of an AirTableConfig succeeds exactly when the token
carries the pat prefix and the base id the app prefix (an absent value is
the empty string, which fails its prefix test). -/
theorem mkAirTableConfig_isOk (t b : String) (tn : Option String) :
    (mkAirTableConfig t b tn).isOk =
      (pyStartswith t "pat" && pyStartswith b "app") := by
  unfold mkAirTableConfig
  split_ifs with h1 h2 h3 h4
  · subst h1
    have hp : pyStartswith "" "pat" = false := by decide
    simp [Except.isOk, Except.toBool, hp]
  · subst h2
    have hp : pyStartswith "" "app" = false := by decide
    simp [Except.isOk, Except.toBool, hp]
  · simp only [Bool.not_eq_true'] at h3
    simp [Except.isOk, Except.toBool, h3]
  · simp only [Bool.not_eq_true'] at h3 h4
    simp [Except.isOk, Except.toBool, h3, h4]
  · simp only [Bool.not_eq_true'] at h3 h4
    simp [Except.isOk, Except.toBool, h3, h4]

/-- Claim C5: constructing an AirTableConfig (directly, or via from_env with
no overrides over an arbitrary environment) raises ConfigurationError
exactly when the access token is absent or lacks the pat prefix, or the
base id is absent or lacks the app prefix; every failure is a
ConfigurationError and every success returns the given field values. -/
theorem claim_C5 :
    (∀ (t b : String) (tn : Option String),
        ((mkAirTableConfig t b tn).isOk =
            (pyStartswith t "pat" && pyStartswith b "app")) ∧
        ((∃ m, mkAirTableConfig t b tn = .error (.configurationError m)) ∨
          mkAirTableConfig t b tn = .ok ⟨t, b, tn⟩)) ∧
    (∀ env : String → Option String,
        (AirTableConfig.from_env none none none env "AIRTABLE_").isOk =
          (pyStartswith ((env ("AIRTABLE_" ++ "ACCESS_TOKEN")).getD "") "pat" &&
           pyStartswith ((env ("AIRTABLE_" ++ "BASE_ID")).getD "") "app")) := by
  refine ⟨fun t b tn => ⟨mkAirTableConfig_isOk t b tn, ?_⟩,
    fun env => mkAirTableConfig_isOk _ _ _⟩
  unfold mkAirTableConfig
  split_ifs <;> first | exact Or.inl ⟨_, rfl⟩ | exact Or.inr rfl

/-- Claim C8: with_table on a valid config returns a new config with the
same access token and base id and the given table name; the original value
is immutable in this embedding, matching the dataclass copy semantics. -/
theorem claim_C8 (c : AirTableConfig)
    (h : (mkAirTableConfig c.access_token c.base_id c.table_name).isOk = true) :
    ∀ t, c.with_table t = .ok ⟨c.access_token, c.base_id, some t⟩ := by
  intro t
  unfold AirTableConfig.with_table
  unfold mkAirTableConfig at h ⊢
  split_ifs at h ⊢ <;> simp_all [Except.isOk, Except.toBool]

/-- Claim C8 witness: the concrete valid config derives a copy bound to the
Tasks table. -/
theorem claim_C8_witness :
    AirTableConfig.with_table ⟨"patT", "appB", none⟩ "Tasks" =
      .ok ⟨"patT", "appB", some "Tasks"⟩ := by
  exact claim_C8 ⟨"patT", "appB", none⟩ (by decide) "Tasks"

/-- Digit characters read back as their value. -/
theorem readDigit_d2c (k : Nat) (h : k < 10) : readDigit (d2c k) = some k := by
  interval_cases k <;> decide

/-- Digit characters are not the letter Z. -/
theorem d2c_ne_Z (k : Nat) (h : k < 10) : d2c k ≠ 'Z' := by
  interval_cases k <;> decide

theorem expectChar_cons (c : Char) (r : List Char) :
    expectChar c (c :: r) = some r := by
  simp [expectChar]

theorem read2_pad2 (n : Nat) (h : n < 100) (r : List Char) :
    read2 (pad2 n ++ r) = some (n, r) := by
  have h1 : n / 10 < 10 := by omega
  have h2 : n % 10 < 10 := by omega
  show read2 (d2c (n / 10) :: d2c (n % 10) :: r) = some (n, r)
  simp [read2, readDigit_d2c _ h1, readDigit_d2c _ h2]
  omega

theorem read4_pad4 (n : Nat) (h : n < 10000) (r : List Char) :
    read4 (pad4 n ++ r) = some (n, r) := by
  have h1 : n / 100 < 100 := by omega
  have h2 : n % 100 < 100 := by omega
  unfold read4
  rw [pad4, List.append_assoc]
  simp only [read2_pad2 _ h1, read2_pad2 _ h2]
  simp
  omega

theorem read6_pad6 (n : Nat) (h : n < 1000000) (r : List Char) :
    read6 (pad6 n ++ r) = some (n, r) := by
  have h1 : n / 10000 < 100 := by omega
  have h2 : (n / 100) % 100 < 100 := by omega
  have h3 : n % 100 < 100 := by omega
  unfold read6
  rw [pad6, List.append_assoc, List.append_assoc]
  simp only [read2_pad2 _ h1, read2_pad2 _ h2, read2_pad2 _ h3]
  simp
  omega

theorem daysInMonth_le (y m : Nat) : daysInMonth y m ≤ 31 := by
  unfold daysInMonth
  split_ifs <;> omega

theorem read2_pad2_nil (n : Nat) (h : n < 100) : read2 (pad2 n) = some (n, []) := by
  have hx := read2_pad2 n h []
  rwa [List.append_nil] at hx

theorem replaceZ_append (a b : List Char) :
    replaceZ (a ++ b) = replaceZ a ++ replaceZ b := by
  simp [replaceZ]

theorem replaceZ_pad2 (n : Nat) (h : n < 100) : replaceZ (pad2 n) = pad2 n := by
  have h1 : n / 10 < 10 := by omega
  have h2 : n % 10 < 10 := by omega
  simp [replaceZ, pad2, d2c_ne_Z _ h1, d2c_ne_Z _ h2]

theorem replaceZ_pad4 (n : Nat) (h : n < 10000) :
    replaceZ (pad4 n) = pad4 n := by
  unfold pad4
  rw [replaceZ_append, replaceZ_pad2 _ (by omega), replaceZ_pad2 _ (by omega)]

theorem replaceZ_pad6 (n : Nat) (h : n < 1000000) :
    replaceZ (pad6 n) = pad6 n := by
  unfold pad6
  rw [replaceZ_append, replaceZ_append, replaceZ_pad2 _ (by omega),
    replaceZ_pad2 _ (by omega), replaceZ_pad2 _ (by omega)]

theorem replaceZ_microPart (us : Nat) (h : us < 1000000) :
    replaceZ (microPart us) = microPart us := by
  unfold microPart
  split_ifs
  · rfl
  · rw [replaceZ_append, replaceZ_pad6 _ h]
    rfl

theorem replaceZ_tzPart (tz : Option Int) (h : tzOK tz) :
    replaceZ (tzPart tz) = tzPart tz := by
  cases tz with
  | none => rfl
  | some o =>
    unfold tzOK at h
    have ha : o.natAbs / 60 < 100 := by omega
    have hb : o.natAbs % 60 < 100 := by omega
    have hsign : ∀ c : Char, c ≠ 'Z' → replaceZ [c] = [c] := by
      intro c hc
      simp [replaceZ, hc]
    unfold tzPart
    by_cases ho : o < 0 <;>
      simp only [ho, if_pos, if_neg, ite_true, ite_false, replaceZ_append,
        replaceZ_pad2 _ ha, replaceZ_pad2 _ hb] <;>
      rw [hsign _ (by decide), hsign _ (by decide)]

theorem replaceZ_iso (dt : PyDatetime) (h : ValidDatetime dt) :
    replaceZ (isoChars dt) = isoChars dt := by
  obtain ⟨⟨hy1, hy2, hm1, hm2, hd1, hd2⟩, ⟨hh, hmi, hs, hus⟩, htz⟩ := h
  have hsign : ∀ c : Char, c ≠ 'Z' → replaceZ [c] = [c] := by
    intro c hc
    simp [replaceZ, hc]
  have hday : dt.day < 100 := by
    have := daysInMonth_le dt.year dt.month
    omega
  unfold isoChars
  simp only [replaceZ_append]
  rw [replaceZ_pad4 _ (by omega), replaceZ_pad2 _ (by omega),
    replaceZ_pad2 _ hday, replaceZ_pad2 _ (by omega),
    replaceZ_pad2 _ (by omega), replaceZ_pad2 _ (by omega),
    replaceZ_microPart _ (by omega), replaceZ_tzPart _ htz,
    hsign '-' (by decide), hsign 'T' (by decide),
    hsign ':' (by decide)]

theorem readFrac_tzPart (tz : Option Int) :
    readFrac (tzPart tz) = some (0, tzPart tz) := by
  cases tz with
  | none => rfl
  | some o =>
    unfold tzPart
    by_cases ho : o < 0 <;> simp [ho, readFrac]

theorem readTz_tzPart (tz : Option Int) (h : tzOK tz) :
    readTz (tzPart tz) = some tz := by
  cases tz with
  | none => rfl
  | some o =>
    unfold tzOK at h
    have ha : o.natAbs / 60 < 100 := by omega
    have hb : o.natAbs % 60 < 100 := by omega
    have hmod : o.natAbs % 60 < 60 := by omega
    unfold tzPart
    by_cases ho : o < 0
    · simp only [ho, ite_true, List.append_assoc, List.singleton_append,
        List.cons_append, List.nil_append]
      rw [readTz]
      simp only [List.nil_append, or_true, true_or, ite_true,
        read2_pad2 _ ha, expectChar_cons, read2_pad2_nil _ hb]
      rw [if_pos (show 60 * (o.natAbs / 60) + o.natAbs % 60 ≤ 1439 from
        by omega)]
      simp only [Option.some.injEq]
      omega
    · simp only [ho, ite_false, List.append_assoc, List.singleton_append,
        List.cons_append, List.nil_append]
      rw [readTz]
      simp only [List.nil_append, or_true, true_or, ite_true,
        read2_pad2 _ ha, expectChar_cons, read2_pad2_nil _ hb]
      rw [if_pos (show 60 * (o.natAbs / 60) + o.natAbs % 60 ≤ 1439 from
        by omega), if_neg (show ¬(('+' : Char) = '-') from by decide)]
      simp only [Option.some.injEq]
      omega

/-- Parsing the canonical rendering of a valid datetime recovers it. -/
theorem fromiso_of_iso (dt : PyDatetime) (h : ValidDatetime dt) :
    fromisoformat (isoChars dt) = some dt := by
  obtain ⟨y, mo, d, hr, mi, sec, us, tz⟩ := dt
  obtain ⟨⟨hy1, hy2, hm1, hm2, hd1, hd2⟩, ⟨hh, hmi, hs, hus⟩, htz⟩ := h
  simp only at hy1 hy2 hm1 hm2 hd1 hd2 hh hmi hs hus htz
  have hy' : y < 10000 := by omega
  have hmo' : mo < 100 := by omega
  have hd' : d < 100 := by
    have := daysInMonth_le y mo
    omega
  have hhr' : hr < 100 := by omega
  have hmi' : mi < 100 := by omega
  have hsec' : sec < 100 := by omega
  have hdok : dateOK y mo d := ⟨hy1, hy2, hm1, hm2, hd1, hd2⟩
  unfold isoChars
  simp only [List.append_assoc, List.singleton_append, List.cons_append,
    List.nil_append]
  unfold fromisoformat
  simp only [read4_pad4 y hy', read2_pad2 mo hmo', read2_pad2 d hd',
    read2_pad2 hr hhr', read2_pad2 mi hmi', read2_pad2 sec hsec',
    expectChar_cons]
  by_cases husz : us = 0
  · subst husz
    rw [show microPart 0 = ([] : List Char) from rfl]
    simp only [List.nil_append, readFrac_tzPart, readTz_tzPart tz htz]
    rw [if_pos (show dateOK y mo d ∧ timeOK hr mi sec 0 from
      ⟨hdok, hh, hmi, hs, by omega⟩)]
  · rw [show microPart us = '.' :: pad6 us from by simp [microPart, husz]]
    simp only [List.cons_append, readFrac, read6_pad6 us (by omega),
      readTz_tzPart tz htz]
    rw [if_pos (show dateOK y mo d ∧ timeOK hr mi sec us from
      ⟨hdok, hh, hmi, hs, hus⟩)]

/-- The month alternatives on a zero-padded two-digit month: the first
candidate regex alternation finds is the month itself with the rest of the
input. -/
theorem candidatesMonth_pad2 (mo : Nat) (h1 : 1 ≤ mo) (h2 : mo ≤ 12)
    (r : List Char) :
    ∃ t, candidatesMonth (pad2 mo ++ r) = (mo, r) :: t := by
  interval_cases mo <;> exact ⟨_, rfl⟩

/-- The day alternatives on a zero-padded two-digit day: the first candidate
is the day itself with the rest of the input. -/
theorem candidatesDay_pad2 (d : Nat) (h1 : 1 ≤ d) (h2 : d ≤ 31)
    (r : List Char) :
    ∃ t, candidatesDay (pad2 d ++ r) = (d, r) :: t := by
  interval_cases d <;> exact ⟨_, rfl⟩

/-- Parsing the canonical rendering of a valid date with strptime recovers
it. -/
theorem strptime_of_dateChars (dv : PyDate) (h : ValidDate dv) :
    strptimeDate (dateChars dv) = some dv := by
  obtain ⟨y, mo, d⟩ := dv
  obtain ⟨hy1, hy2, hm1, hm2, hd1, hd2⟩ := h
  simp only at hy1 hy2 hm1 hm2 hd1 hd2
  have hy' : y < 10000 := by omega
  have hdok : dateOK y mo d := ⟨hy1, hy2, hm1, hm2, hd1, hd2⟩
  unfold strptimeDate parseDateSyntax dateChars
  simp only [List.append_assoc, List.singleton_append, List.cons_append,
    List.nil_append]
  simp only [read4_pad4 y hy', expectChar_cons]
  obtain ⟨tm, htm⟩ := candidatesMonth_pad2 mo hm1 hm2 ('-' :: pad2 d)
  rw [htm]
  rw [List.findSome?_cons]
  simp only [expectChar_cons]
  obtain ⟨td, htd⟩ := candidatesDay_pad2 d hd1 (by
    have := daysInMonth_le y mo
    omega) []
  rw [List.append_nil] at htd
  rw [htd]
  rw [List.findSome?_cons]
  simp only [ite_true]
  rw [if_pos hdok]

/-- Deserializing an in-range integer number of seconds and serializing the
resulting timedelta gives the integer back. -/
theorem duration_roundtrip (n : Int) (h1 : -86399999913600 ≤ n)
    (h2 : n ≤ 86399999999999) :
    wireRoundtrip (.int n) .DURATION = .ok (.int n) := by
  have hfd : (n * 1000000).fdiv 86400000000 = n * 1000000 / 86400000000 :=
    Int.fdiv_eq_ediv _ (by norm_num)
  have e2 : ∀ a : Int, a.fdiv 1000000 = a / 1000000 := fun a =>
    Int.fdiv_eq_ediv a (by norm_num)
  have e3 : ∀ a : Int, a.fmod 1000000 = a % 1000000 := fun a =>
    Int.fmod_eq_emod a (by norm_num)
  have hparse : timedeltaFromSeconds n = .ok
      ⟨n * 1000000 / 86400000000,
       (n * 1000000 % 86400000000 / 1000000).toNat,
       (n * 1000000 % 86400000000 % 1000000).toNat⟩ := by
    unfold timedeltaFromSeconds timedeltaFromMicros
    rw [if_neg (by simp only [hfd]; omega)]
    rw [hfd, ← Int.emod_def, e2, e3]
  have hsum : (n * 1000000 / 86400000000) * 86400000000 +
      ((n * 1000000 % 86400000000 / 1000000).toNat : Int) * 1000000 +
      ((n * 1000000 % 86400000000 % 1000000).toNat : Int) = n * 1000000 := by
    omega
  have hint : intTotalSeconds
      ⟨n * 1000000 / 86400000000,
       (n * 1000000 % 86400000000 / 1000000).toNat,
       (n * 1000000 % 86400000000 % 1000000).toNat⟩ = n := by
    show Int.tdiv ((n * 1000000 / 86400000000) * 86400000000 +
      ((n * 1000000 % 86400000000 / 1000000).toNat : Int) * 1000000 +
      ((n * 1000000 % 86400000000 % 1000000).toNat : Int)) 1000000 = n
    rw [hsum, Int.mul_tdiv_cancel n (by norm_num)]
  have hp2 : parse_value_from_airtable (.int n) .DURATION =
      (timedeltaFromSeconds n).map .timedelta := rfl
  unfold wireRoundtrip
  rw [hp2, hparse]
  show format_value_for_airtable
    (.timedelta ⟨n * 1000000 / 86400000000,
      (n * 1000000 % 86400000000 / 1000000).toNat,
      (n * 1000000 % 86400000000 % 1000000).toNat⟩) .DURATION = .ok (.int n)
  rw [show format_value_for_airtable
      (.timedelta ⟨n * 1000000 / 86400000000,
        (n * 1000000 % 86400000000 / 1000000).toNat,
        (n * 1000000 % 86400000000 % 1000000).toNat⟩) .DURATION =
      .ok (.int (intTotalSeconds
        ⟨n * 1000000 / 86400000000,
         (n * 1000000 % 86400000000 / 1000000).toNat,
         (n * 1000000 % 86400000000 % 1000000).toNat⟩)) from rfl]
  rw [hint]

/-- Claim C4 (amended): serialize(deserialize(x)) = x for the canonical wire
encodings of values: datetime strings as emitted by isoformat (which never
uses the Z suffix; a Z-suffixed input is normalized to +00:00 and does not
round-trip verbatim), zero-padded YYYY-MM-DD date strings of valid dates,
and integer second counts within the representable range of timedelta. -/
theorem claim_C4 :
    (∀ dt : PyDatetime, ValidDatetime dt →
        wireRoundtrip (.str (isoformat dt)) .DATETIME =
          .ok (.str (isoformat dt))) ∧
    (∀ dv : PyDate, ValidDate dv →
        wireRoundtrip (.str (strftimeDate dv)) .DATE =
          .ok (.str (strftimeDate dv))) ∧
    (∀ n : Int, -86399999913600 ≤ n → n ≤ 86399999999999 →
        wireRoundtrip (.int n) .DURATION = .ok (.int n)) := by
  refine ⟨?_, ?_, fun n h1 h2 => duration_roundtrip n h1 h2⟩
  · intro dt h
    unfold wireRoundtrip
    have hp : parse_value_from_airtable (.str (isoformat dt)) .DATETIME =
        (match fromisoformat (replaceZ (isoformat dt).data) with
         | some v => Except.ok (PyValue.datetime v)
         | none => Except.ok (PyValue.str (isoformat dt))) := rfl
    rw [hp, show replaceZ (isoformat dt).data = replaceZ (isoChars dt) from rfl,
      replaceZ_iso dt h, fromiso_of_iso dt h]
    rfl
  · intro dv h
    unfold wireRoundtrip
    have hp : parse_value_from_airtable (.str (strftimeDate dv)) .DATE =
        (match strptimeDate (strftimeDate dv).data with
         | some v => Except.ok (PyValue.date v)
         | none => Except.ok (PyValue.str (strftimeDate dv))) := rfl
    rw [hp, show (strftimeDate dv).data = dateChars dv from rfl,
      strptime_of_dateChars dv h]
    rfl

/-- Claim C4 counterexample: a Z-suffixed ISO-8601 datetime string is a
documented wire encoding but does not round-trip (the code rewrites Z to
+00:00 before parsing, and isoformat renders the offset as +00:00); and an
integer number of seconds beyond the timedelta range makes deserialization
raise OverflowError instead of round-tripping. -/
theorem claim_C4_counterexample :
    wireRoundtrip (.str "2023-01-01T00:00:00Z") .DATETIME =
        .ok (.str "2023-01-01T00:00:00+00:00") ∧
    PyValue.str "2023-01-01T00:00:00+00:00" ≠ .str "2023-01-01T00:00:00Z" ∧
    parse_value_from_airtable (.int 1000000000000000) .DURATION =
        .error .overflowError := by
  refine ⟨rfl, by decide, rfl⟩

/-- Claim C4 witness: concrete round trips through each conversion pair. -/
theorem claim_C4_witness :
    wireRoundtrip (.str "2024-02-29T23:59:59.999999-05:30") .DATETIME =
      .ok (.str "2024-02-29T23:59:59.999999-05:30") ∧
    wireRoundtrip (.str "1999-12-31") .DATE = .ok (.str "1999-12-31") ∧
    wireRoundtrip (.int (-1)) .DURATION = .ok (.int (-1)) := by
  refine ⟨?_, ?_, ?_⟩
  · have h := claim_C4.1 ⟨2024, 2, 29, 23, 59, 59, 999999, some (-330)⟩
      ⟨(by decide : dateOK 2024 2 29), (by decide : timeOK 23 59 59 999999),
       (by decide : ((-330 : Int).natAbs ≤ 1439))⟩
    have he : isoformat ⟨2024, 2, 29, 23, 59, 59, 999999, some (-330)⟩ =
        "2024-02-29T23:59:59.999999-05:30" := rfl
    rw [he] at h
    exact h
  · have h := claim_C4.2.1 ⟨1999, 12, 31⟩ (by decide : dateOK 1999 12 31)
    have he : strftimeDate ⟨1999, 12, 31⟩ = "1999-12-31" := rfl
    rw [he] at h
    exact h
  · exact claim_C4.2.2 (-1) (by norm_num) (by norm_num)

/-- Claim C6: a string that is not a well-formed encoding of the target
temporal type (well-formedness given by the embedded parsers, whose failure
models the ValueError the code catches) is returned unchanged by
deserialization under DATETIME and DATE, and no exception escapes: the
result is an ok value, never an error. -/
theorem claim_C6 :
    (∀ s : String, fromisoformat (replaceZ s.data) = none →
        parse_value_from_airtable (.str s) .DATETIME = .ok (.str s)) ∧
    (∀ s : String, strptimeDate s.data = none →
        parse_value_from_airtable (.str s) .DATE = .ok (.str s)) := by
  constructor
  · intro s hs
    have hp : parse_value_from_airtable (.str s) .DATETIME =
        (match fromisoformat (replaceZ s.data) with
         | some v => Except.ok (PyValue.datetime v)
         | none => Except.ok (PyValue.str s)) := rfl
    rw [hp, hs]
  · intro s hs
    have hp : parse_value_from_airtable (.str s) .DATE =
        (match strptimeDate s.data with
         | some v => Except.ok (PyValue.date v)
         | none => Except.ok (PyValue.str s)) := rfl
    rw [hp, hs]

/-- Claim C6 witness: a concrete malformed string passes through unchanged
under both temporal field types. -/
theorem claim_C6_witness :
    parse_value_from_airtable (.str "not-a-date") .DATETIME =
        .ok (.str "not-a-date") ∧
    parse_value_from_airtable (.str "not-a-date") .DATE =
        .ok (.str "not-a-date") :=
  ⟨claim_C6.1 "not-a-date" rfl, claim_C6.2 "not-a-date" rfl⟩

theorem chunks10_cons_eq {α : Type} (l : List α) (h : l ≠ []) :
    chunks10 l = l.take 10 :: chunks10 (l.drop 10) := by
  cases l with
  | nil => simp at h
  | cons x xs => rw [chunks10]

theorem chunks10_join {α : Type} (l : List α) : (chunks10 l).flatten = l := by
  induction l using chunks10.induct with
  | case1 => simp [chunks10]
  | case2 x xs ih =>
    rw [chunks10]
    simp only [List.flatten_cons, ih, List.take_append_drop]

theorem chunks10_length_le {α : Type} (l : List α) :
    ∀ b ∈ chunks10 l, b.length ≤ 10 := by
  induction l using chunks10.induct with
  | case1 => simp [chunks10]
  | case2 x xs ih =>
    intro b hb
    rw [chunks10] at hb
    rcases List.mem_cons.mp hb with h | h
    · subst h
      simp only [List.length_take]
      omega
    · exact ih b h

theorem chunks10_sizes_25 {α : Type} (l : List α) (h : l.length = 25) :
    (chunks10 l).map List.length = [10, 10, 5] := by
  have h1 : l ≠ [] := by
    intro he
    subst he
    simp at h
  have hd1 : (l.drop 10).length = 15 := by simp [h]
  have h2 : l.drop 10 ≠ [] := by
    intro he
    rw [he] at hd1
    simp at hd1
  have hd2 : ((l.drop 10).drop 10).length = 5 := by simp [h]
  have h3 : (l.drop 10).drop 10 ≠ [] := by
    intro he
    rw [he] at hd2
    simp at hd2
  have hd3 : (((l.drop 10).drop 10).drop 10).length = 0 := by simp [h]
  have h4 : ((l.drop 10).drop 10).drop 10 = [] :=
    List.eq_nil_of_length_eq_zero hd3
  rw [chunks10_cons_eq l h1, chunks10_cons_eq _ h2, chunks10_cons_eq _ h3, h4]
  simp [chunks10, List.length_take, h, hd1, hd2]

/-- Claim C9: bulk_create partitions the input into consecutive batches of
at most 10 records (25 inputs giving exactly 3 calls of sizes 10, 10 and
5), issues one create call per batch, and returns the created instances in
input order. -/
theorem claim_C9 {α β : Type} (create_record : α → β) (records : List α) :
    (∀ b ∈ (bulk_create create_record records).1, b.length ≤ 10) ∧
    (bulk_create create_record records).1.flatten = records ∧
    (bulk_create create_record records).2 = records.map create_record ∧
    (records.length = 25 →
      (bulk_create create_record records).1.map List.length = [10, 10, 5] ∧
      (bulk_create create_record records).1.length = 3) := by
  refine ⟨chunks10_length_le records, chunks10_join records, ?_, ?_⟩
  · show ((chunks10 records).map
        (fun batch => batch.map create_record)).flatten =
      records.map create_record
    rw [← List.map_flatten, chunks10_join]
  · intro h25
    refine ⟨chunks10_sizes_25 records h25, ?_⟩
    have hm := congrArg List.length (chunks10_sizes_25 records h25)
    simpa using hm

/-- Claim C9 witness: a concrete 25-record bulk_create issues 3 batches of
sizes 10, 10 and 5 and returns the 25 created instances in order. -/
theorem claim_C9_witness :
    (bulk_create (fun n : Nat => n + 1) (List.range 25)).1.map List.length =
        [10, 10, 5] ∧
    (bulk_create (fun n : Nat => n + 1) (List.range 25)).2 =
        (List.range 25).map (fun n => n + 1) := by
  have h := claim_C9 (fun n : Nat => n + 1) (List.range 25)
  exact ⟨(h.2.2.2 (by simp)).1, h.2.2.1⟩
